import Mathlib

/-!
Verification development for `restore-files.py`, a tool that restores
archived files back into a target directory tree, guided by `.txt`
placeholder marker files.

Paths are modelled as lists of path components (the result of splitting a
path string on `os.path.sep`); an absolute path is represented with a
leading `""` component, exactly as Python's `str.split` produces it.  The
filesystem is an explicit state: an association list of file paths to
contents, a list of directories, and a list of unreadable file paths
(files whose `open`/`readline` raises).  I/O failures of `os.makedirs`,
`shutil.copy` and `os.remove` are driven by an explicit failure oracle,
standing for the `except` clauses of the Python code.
-/

set_option autoImplicit false

namespace RestoreFiles

/-- Resolution a real filesystem performs on a path before looking it up:
empty components and `"."` are dropped, `".."` removes the preceding
component (at the root it stays at the root).  All `FS` operations resolve
paths through this, so `a/./b` and `a/b` denote the same filesystem entry,
as they do for `os.path.isfile` etc. -/
def cleanPath (p : List String) : List String :=
  p.foldl
    (fun acc c =>
      if c = "" ∨ c = "." then acc
      else if c = ".." then acc.dropLast
      else acc ++ [c]) []

/-- Python's `str.isspace` on the characters `str.strip()` removes. -/
def pyIsSpace (c : Char) : Bool :=
  c = ' ' ∨ c = '\t' ∨ c = '\n' ∨ c = '\r' ∨ c = '\x0b' ∨ c = '\x0c'

/-- Python's `s.strip()`: drop leading and trailing whitespace. -/
def pyStrip (s : String) : String :=
  ⟨((s.data.dropWhile pyIsSpace).reverse.dropWhile pyIsSpace).reverse⟩

/-- Python's `s.lower()` (ASCII letters, the only ones the marker phrase
check needs). -/
def pyLower (s : String) : String :=
  ⟨s.data.map Char.toLower⟩

/-- Occurrence test of `pat` inside `s`, on character lists. -/
def containsSub : List Char → List Char → Bool
  | s, pat =>
    if pat.isPrefixOf s then true
    else
      match s with
      | [] => false
      | _ :: t => containsSub t pat

/-- Python's `pat in s` substring test. -/
def pyContains (s pat : String) : Bool := containsSub s.data pat.data

/-- Python's `s.endswith(suffix)`. -/
def pyEndsWith (s suffix : String) : Bool := suffix.data.isSuffixOf s.data

/-- The first line of a file's content, as `f.readline()` returns it
(without the terminating newline). -/
def pyFirstLine (s : String) : String := ⟨s.data.takeWhile (fun c => c ≠ '\n')⟩

/-- Filesystem state: files (path ↦ content), directories, and files whose
`open`/first-line read raises an exception. -/
structure FS where
  files : List (List String × String) := []
  dirs : List (List String) := []
  unreadable : List (List String) := []
  deriving Repr, DecidableEq

/-- Look up the content stored for path `k` in a file table. -/
def findContent : List (List String × String) → List String → Option String
  | [], _ => none
  | e :: l, k => if e.1 = k then some e.2 else findContent l k

/-- Drop every entry stored for path `k` from a file table. -/
def eraseKey : List (List String × String) → List String → List (List String × String)
  | [], _ => []
  | e :: l, k => if e.1 = k then eraseKey l k else e :: eraseKey l k

/-- `os.path.isfile`. -/
def FS.isFile (fs : FS) (p : List String) : Bool :=
  (findContent fs.files (cleanPath p)).isSome

/-- `os.path.isdir`. -/
def FS.isDir (fs : FS) (p : List String) : Bool :=
  fs.dirs.contains (cleanPath p)

/-- Content of a file (empty if absent). -/
def FS.readContent (fs : FS) (p : List String) : String :=
  (findContent fs.files (cleanPath p)).getD ""

/-- `f.readline().strip()` on the file at `p`: the first line of its
content, with surrounding whitespace stripped. -/
def FS.readFirstLine (fs : FS) (p : List String) : String :=
  pyStrip (pyFirstLine (fs.readContent p))

/-- Write (create or overwrite) the file at `p`. -/
def FS.writeFile (fs : FS) (p : List String) (content : String) : FS :=
  { fs with files := (cleanPath p, content) :: eraseKey fs.files (cleanPath p) }

/-- `os.remove`. -/
def FS.removeFile (fs : FS) (p : List String) : FS :=
  { fs with files := eraseKey fs.files (cleanPath p) }

/-- `os.makedirs(p, exist_ok=True)`: create `p` and all intermediate
directories; existing ones are left alone. -/
def FS.makedirs (fs : FS) (p : List String) : FS :=
  let q := cleanPath p
  let ancestors := (List.range q.length).map (fun i => q.take (i + 1))
  { fs with dirs := fs.dirs ++ ancestors.filter (fun d => ¬ fs.dirs.contains d) }

/-- `shutil.copy(src, dst)`: copy the content of `src` to `dst`; when `dst`
is a directory the file is copied into it under `src`'s base name. -/
def FS.copyFile (fs : FS) (src dst : List String) : FS :=
  if fs.isDir dst then
    fs.writeFile (cleanPath dst ++ [(cleanPath src).getLastD ""]) (fs.readContent src)
  else
    fs.writeFile dst (fs.readContent src)

/-- Python's `s[:-n]` for a string: drop the last `n` characters (an empty
string when `s` has at most `n` characters). -/
def pyDropRight (s : String) (n : Nat) : String :=
  ⟨s.data.take (s.data.length - n)⟩

/-- `os.path.normpath(path).split(os.path.sep)` for a path given as its raw
component split `raw`: empty and `"."` components are dropped, `".."`
cancels a preceding real component (kept at the front of a relative path,
dropped at the root of an absolute one), an absolute path keeps its leading
`""`, and an emptied-out relative path becomes `["."]`. -/
def normSplit (raw : List String) : List String :=
  let isAbs := raw.head? = some ""
  let body :=
    raw.foldl
      (fun acc c =>
        if c = "" ∨ c = "." then acc
        else if c = ".." then
          if acc = [] then (if isAbs then [] else [".."])
          else if acc.getLastD "" = ".." then acc ++ [".."]
          else acc.dropLast
        else acc ++ [c]) []
  if isAbs then "" :: body
  else if body = [] then ["."]
  else body

/-- The validation errors `construct_and_validate_paths` raises (three
distinct `ValueError` messages) together with the driver loop's
`ValueError` for an unknown outcome string. -/
inductive RunError where
  | targetMissing (p : List String)
  | anchorNotFound (p : List String)
  | archiveMissing (p : List String)
  | unknownResult (s : String)
  deriving Repr, DecidableEq

/-- `construct_and_validate_paths(target_dir, archive_root)`: check the
target directory exists, locate the `"Shared"` anchor in the normalized
target path, append everything from the anchor onward to the archive root,
and check the resulting archive directory exists. -/
def construct_and_validate_paths (fs : FS) (target_dir archive_root : List String) :
    Except RunError (List String) :=
  if ¬ fs.isDir target_dir then .error (.targetMissing target_dir)
  else
    let split_path := normSplit target_dir
    if "Shared" ∈ split_path then
      let index := split_path.indexOf "Shared"
      let path_without_root := split_path.drop index
      let full_archive_path := archive_root ++ path_without_root
      if ¬ fs.isDir full_archive_path then .error (.archiveMissing full_archive_path)
      else .ok full_archive_path
    else .error (.anchorNotFound target_dir)

/-- The (directory path, filename) pairs produced by walking `root` with
`os.walk`: every file whose path extends `root`.  The walk mutates nothing;
its order is the (deterministic) order of the file table. -/
def walkFiles (fs : FS) (root : List String) : List (List String × String) :=
  fs.files.filterMap
    (fun e =>
      if (cleanPath root).isPrefixOf e.1 ∧ (cleanPath root).length < e.1.length then
        some (e.1.dropLast, e.1.getLastD "")
      else none)

/-- `collect_txt_placeholders(path_to_target)`: walk the target tree and
keep the `(dirpath, filename)` pairs of files whose name ends in `".txt"`,
whose first line can be read (a read failure is logged and the file
skipped), and whose first line, lower-cased, contains the phrase
`"automatic archiving policy"`. -/
def collect_txt_placeholders (fs : FS) (path_to_target : List String) :
    List (List String × String) :=
  (walkFiles fs path_to_target).filterMap
    (fun df =>
      if ¬ pyEndsWith df.2 ".txt" then none
      else
        let placeholder_file_path := df.1 ++ [df.2]
        if fs.unreadable.contains (cleanPath placeholder_file_path) then none
        else
          let first_line := fs.readFirstLine placeholder_file_path
          if ¬ pyContains (pyLower first_line) "automatic archiving policy" then none
          else some df)

/-- Length of the longest common prefix of two component lists. -/
def commonPrefixLen : List String → List String → Nat
  | a :: as, b :: bs => if a = b then commonPrefixLen as bs + 1 else 0
  | _, _ => 0

/-- `os.path.relpath(path, start)` on component lists (both interpreted
against the same working directory, as `relpath` resolves both through
`abspath`): strip the common prefix, go up with `".."` for what remains of
`start`, and return `["."]` when the two coincide. -/
def relpath (path start : List String) : List String :=
  let p := cleanPath path
  let s := cleanPath start
  let i := commonPrefixLen p s
  let r := List.replicate (s.length - i) ".." ++ p.drop i
  if r = [] then ["."] else r

/-- `placeholder_filename[:-4]` of line 92. -/
def original_filename (placeholder_filename : String) : String :=
  pyDropRight placeholder_filename 4

/-- `os.path.join(path_to_archive, relative_path, original_filename)` of
line 94. -/
def archived_file (dirpath : List String) (placeholder_filename : String)
    (path_to_target path_to_archive : List String) : List String :=
  path_to_archive ++ relpath dirpath path_to_target ++ [original_filename placeholder_filename]

/-- `os.path.join(dirpath, original_filename)` of line 95. -/
def target_file (dirpath : List String) (placeholder_filename : String) : List String :=
  dirpath ++ [original_filename placeholder_filename]

/-- `os.path.join(dirpath, placeholder_filename)` of line 96. -/
def placeholder_file (dirpath : List String) (placeholder_filename : String) : List String :=
  dirpath ++ [placeholder_filename]

/-- Failure oracle for one `process_placeholder` call, standing for the
exceptions `os.makedirs`, `shutil.copy` and `os.remove` may raise inside
the `try` block; `copyPartial` is the content a failed copy leaves at the
destination, if any. -/
structure FailSpec where
  makedirsFails : Bool := false
  copyFails : Bool := false
  copyPartial : Option String := none
  removeFails : Bool := false
  deriving Repr, DecidableEq

/-- `process_placeholder(dirpath, placeholder_filename, path_to_target,
path_to_archive, dry_run)`: classify one placeholder and (outside dry-run)
restore it, returning the outcome string and the new filesystem state. -/
def process_placeholder (fs : FS) (fail : FailSpec) (dirpath : List String)
    (placeholder_filename : String) (path_to_target path_to_archive : List String)
    (dry_run : Bool) : String × FS :=
  let archived := archived_file dirpath placeholder_filename path_to_target path_to_archive
  let target := target_file dirpath placeholder_filename
  let placeholder := placeholder_file dirpath placeholder_filename
  if ¬ fs.isFile archived then ("missing", fs)
  else if fs.isFile target then ("skipped", fs)
  else if dry_run then ("restored", fs)
  else if fail.makedirsFails then ("error", fs)
  else
    let fs1 := fs.makedirs dirpath
    if fail.copyFails then
      ("error",
        match fail.copyPartial with
        | none => fs1
        | some c => fs1.writeFile target c)
    else
      let fs2 := fs1.copyFile archived target
      if fail.removeFails then ("error", fs2)
      else ("restored", fs2.removeFile placeholder)

/-- One arm of the driver loop's `match result` statement: bump the counter
for a known outcome, raise `ValueError` for anything else.  Counters are
`(restored, skipped, missing, errors)`. -/
def tally (c : Nat × Nat × Nat × Nat) (result : String) :
    Except RunError (Nat × Nat × Nat × Nat) :=
  if result = "restored" then .ok (c.1 + 1, c.2.1, c.2.2.1, c.2.2.2)
  else if result = "skipped" then .ok (c.1, c.2.1 + 1, c.2.2.1, c.2.2.2)
  else if result = "missing" then .ok (c.1, c.2.1, c.2.2.1 + 1, c.2.2.2)
  else if result = "error" then .ok (c.1, c.2.1, c.2.2.1, c.2.2.2 + 1)
  else .error (.unknownResult result)

/-- The driver's `for dirpath, filename in placeholders` loop, threading the
filesystem and one `FailSpec` per iteration (a missing schedule entry means
no failure). -/
def restore_loop (fs : FS) (sched : List FailSpec)
    (placeholders : List (List String × String))
    (path_to_target path_to_archive : List String) (dry_run : Bool)
    (c : Nat × Nat × Nat × Nat) :
    Except RunError ((Nat × Nat × Nat × Nat) × FS) :=
  match placeholders with
  | [] => .ok (c, fs)
  | df :: rest =>
      let step :=
        process_placeholder fs (sched.headD {}) df.1 df.2 path_to_target path_to_archive dry_run
      match tally c step.1 with
      | .error e => .error e
      | .ok c1 => restore_loop step.2 sched.tail rest path_to_target path_to_archive dry_run c1

/-- `restore_archived_files(target_dir, archive_root, dry_run)`: validate
the paths, scan for placeholders, process each one; an exception (a
validation error, or the loop's `ValueError`) propagates as `.error`. -/
def restore_archived_files (fs : FS) (sched : List FailSpec)
    (target_dir archive_root : List String) (dry_run : Bool) :
    Except RunError ((Nat × Nat × Nat × Nat) × FS) :=
  match construct_and_validate_paths fs target_dir archive_root with
  | .error e => .error e
  | .ok path_to_archive =>
      let placeholders := collect_txt_placeholders fs target_dir
      restore_loop fs sched placeholders target_dir path_to_archive dry_run (0, 0, 0, 0)

/-- A path whose components are all real names: no `""`, `"."` or `".."`
component, so filesystem resolution leaves it unchanged. -/
def CleanComps (p : List String) : Prop :=
  ∀ c ∈ p, c ≠ "" ∧ c ≠ "." ∧ c ≠ ".."

instance (p : List String) : Decidable (CleanComps p) := by
  unfold CleanComps; infer_instance

/-! ### Concrete example states (used to instantiate the theorems) -/

/-- Example target directory `/srv/Shared/proj`. -/
def exTgt : List String := ["", "srv", "Shared", "proj"]

/-- Example archive root `/arc`. -/
def exArcRoot : List String := ["", "arc"]

/-- The archive path the validator computes for `exTgt` and `exArcRoot`. -/
def exArcPath : List String := ["", "arc", "Shared", "proj"]

/-- The subdirectory of `exTgt` holding the example placeholders. -/
def exSub : List String := ["srv", "Shared", "proj", "sub"]

/-- Example filesystem: three placeholders under `exTgt` (one restorable,
one whose destination already exists, one whose archived copy is missing),
a non-marker `.txt` file, and the archive tree. -/
def exFS : FS :=
  { files :=
      [ (["srv", "Shared", "proj", "sub", "notes.txt"], "Automatic Archiving Policy\nnotes"),
        (["srv", "Shared", "proj", "sub", "data.txt"], "automatic archiving policy"),
        (["srv", "Shared", "proj", "sub", "data"], "already here"),
        (["srv", "Shared", "proj", "sub", "report.txt"], "AUTOMATIC ARCHIVING POLICY"),
        (["srv", "Shared", "proj", "readme.txt"], "Meeting notes"),
        (["arc", "Shared", "proj", "sub", "notes"], "archived notes"),
        (["arc", "Shared", "proj", "sub", "data"], "archived data") ],
    dirs :=
      [ ["srv", "Shared", "proj"], ["srv", "Shared", "proj", "sub"],
        ["arc", "Shared", "proj"], ["arc", "Shared", "proj", "sub"] ],
    unreadable := [] }

/-- The state a full non-dry run leaves `exFS` in: `notes` restored and its
marker gone, everything else untouched, ancestor directories ensured. -/
def exFSFinal : FS :=
  { files :=
      [ (["srv", "Shared", "proj", "sub", "notes"], "archived notes"),
        (["srv", "Shared", "proj", "sub", "data.txt"], "automatic archiving policy"),
        (["srv", "Shared", "proj", "sub", "data"], "already here"),
        (["srv", "Shared", "proj", "sub", "report.txt"], "AUTOMATIC ARCHIVING POLICY"),
        (["srv", "Shared", "proj", "readme.txt"], "Meeting notes"),
        (["arc", "Shared", "proj", "sub", "notes"], "archived notes"),
        (["arc", "Shared", "proj", "sub", "data"], "archived data") ],
    dirs :=
      [ ["srv", "Shared", "proj"], ["srv", "Shared", "proj", "sub"],
        ["arc", "Shared", "proj"], ["arc", "Shared", "proj", "sub"],
        ["srv"], ["srv", "Shared"] ],
    unreadable := [] }

/-- Another directory of `exTgt`, for the directory-vs-file checks. -/
def exD : List String := ["srv", "Shared", "proj", "d"]

/-- Filesystem whose archived source path and destination path exist as
directories, not as regular files. -/
def exFS10 : FS :=
  { files := [ (["arc", "Shared", "proj", "d", "other"], "x") ],
    dirs :=
      [ ["srv", "Shared", "proj"], ["arc", "Shared", "proj"],
        ["srv", "Shared", "proj", "d"],
        ["arc", "Shared", "proj", "d", "thing"],
        ["srv", "Shared", "proj", "d", "other"] ],
    unreadable := [] }

/-- Empty filesystem: the target directory does not exist. -/
def exFSEmpty : FS := {}

/-- A target path without the `"Shared"` anchor. -/
def exTgtNoAnchor : List String := ["", "home", "user"]

/-- Filesystem where `exTgtNoAnchor` exists (but has no anchor). -/
def exFSNoAnchor : FS := { dirs := [["home", "user"]], files := [], unreadable := [] }

/-- Filesystem where the target exists but the computed archive directory
does not. -/
def exFSNoArchive : FS := { dirs := [["srv", "Shared", "proj"]], files := [], unreadable := [] }

/-! ### Helper lemmas about the filesystem state -/

theorem findContent_eraseKey_ne (l : List (List String × String)) (a b : List String)
    (h : a ≠ b) : findContent (eraseKey l b) a = findContent l a := by
  induction l with
  | nil => rfl
  | cons e l ih =>
      by_cases he : e.1 = b
      · have hba : b ≠ a := fun hc => h hc.symm
        simp [eraseKey, findContent, he, hba, ih]
      · simp only [eraseKey, he, if_false, findContent]
        by_cases ha : e.1 = a <;> simp [ha, ih]

theorem findContent_eraseKey_self (l : List (List String × String)) (b : List String) :
    findContent (eraseKey l b) b = none := by
  induction l with
  | nil => rfl
  | cons e l ih =>
      by_cases he : e.1 = b
      · simp [eraseKey, he, ih]
      · simp [eraseKey, findContent, he, ih]

@[simp] theorem FS.files_makedirs (fs : FS) (p : List String) :
    (fs.makedirs p).files = fs.files := rfl

@[simp] theorem FS.isFile_makedirs (fs : FS) (p q : List String) :
    (fs.makedirs p).isFile q = fs.isFile q := rfl

@[simp] theorem FS.isFile_writeFile_self (fs : FS) (p : List String) (c : String) :
    (fs.writeFile p c).isFile p = true := by
  simp [FS.isFile, FS.writeFile, findContent]

theorem FS.isFile_writeFile_ne (fs : FS) (p q : List String) (c : String)
    (h : cleanPath q ≠ cleanPath p) : (fs.writeFile p c).isFile q = fs.isFile q := by
  have hne : cleanPath p ≠ cleanPath q := fun hc => h hc.symm
  simp [FS.isFile, FS.writeFile, findContent, hne, findContent_eraseKey_ne _ _ _ h]

@[simp] theorem FS.isFile_removeFile_self (fs : FS) (p : List String) :
    (fs.removeFile p).isFile p = false := by
  simp [FS.isFile, FS.removeFile, findContent_eraseKey_self]

theorem FS.isFile_removeFile_ne (fs : FS) (p q : List String)
    (h : cleanPath q ≠ cleanPath p) : (fs.removeFile p).isFile q = fs.isFile q := by
  simp [FS.isFile, FS.removeFile, findContent_eraseKey_ne _ _ _ h]

theorem FS.copyFile_of_not_dir (fs : FS) (src dst : List String)
    (h : fs.isDir dst = false) :
    fs.copyFile src dst = fs.writeFile dst (fs.readContent src) := by
  simp [FS.copyFile, h]

/-! ### Outcome classification of the Restore Executor -/

theorem process_placeholder_result_cases (fs : FS) (fail : FailSpec)
    (dirpath : List String) (pfn : String) (tgt arc : List String) (dry : Bool) :
    (process_placeholder fs fail dirpath pfn tgt arc dry).1 = "restored" ∨
    (process_placeholder fs fail dirpath pfn tgt arc dry).1 = "skipped" ∨
    (process_placeholder fs fail dirpath pfn tgt arc dry).1 = "missing" ∨
    (process_placeholder fs fail dirpath pfn tgt arc dry).1 = "error" := by
  unfold process_placeholder
  dsimp only
  repeat' split
  all_goals simp

theorem tally_ok_of_known (c : Nat × Nat × Nat × Nat) (r : String)
    (h : r = "restored" ∨ r = "skipped" ∨ r = "missing" ∨ r = "error") :
    ∃ c', tally c r = Except.ok c' := by
  rcases h with h | h | h | h <;> subst h <;> simp [tally]

theorem restore_loop_ok (placeholders : List (List String × String))
    (tgt arc : List String) (dry : Bool) :
    ∀ (fs : FS) (sched : List FailSpec) (c : Nat × Nat × Nat × Nat),
      ∃ out, restore_loop fs sched placeholders tgt arc dry c = Except.ok out := by
  induction placeholders with
  | nil => intro fs sched c; exact ⟨(c, fs), rfl⟩
  | cons df rest ih =>
      intro fs sched c
      obtain ⟨c', hc'⟩ :=
        tally_ok_of_known c
          (process_placeholder fs (sched.headD {}) df.1 df.2 tgt arc dry).1
          (process_placeholder_result_cases fs (sched.headD {}) df.1 df.2 tgt arc dry)
      obtain ⟨out, hout⟩ :=
        ih (process_placeholder fs (sched.headD {}) df.1 df.2 tgt arc dry).2 sched.tail c'
      refine ⟨out, ?_⟩
      rw [restore_loop, hc']
      exact hout

/-- C9: `process_placeholder` always returns one of the four outcome
strings `"restored"`, `"skipped"`, `"missing"`, `"error"`, so the driver
loop's unknown-outcome `ValueError` branch is unreachable: whenever path
validation succeeds, the whole run returns normally. -/
theorem unknown_result_branch_unreachable (fs : FS) (fail : FailSpec)
    (dirpath : List String) (pfn : String) (tgt arc : List String) (dry : Bool)
    (sched : List FailSpec) (arcroot : List String) :
    ((process_placeholder fs fail dirpath pfn tgt arc dry).1 = "restored" ∨
     (process_placeholder fs fail dirpath pfn tgt arc dry).1 = "skipped" ∨
     (process_placeholder fs fail dirpath pfn tgt arc dry).1 = "missing" ∨
     (process_placeholder fs fail dirpath pfn tgt arc dry).1 = "error") ∧
    (∀ arcPath, construct_and_validate_paths fs tgt arcroot = Except.ok arcPath →
      ∃ out, restore_archived_files fs sched tgt arcroot dry = Except.ok out) := by
  refine ⟨process_placeholder_result_cases fs fail dirpath pfn tgt arc dry, ?_⟩
  intro arcPath hok
  obtain ⟨out, hout⟩ :=
    restore_loop_ok (collect_txt_placeholders fs tgt) tgt arcPath dry fs sched (0, 0, 0, 0)
  refine ⟨out, ?_⟩
  rw [restore_archived_files, hok]
  exact hout

/-- C1: for every accepted placeholder, `process_placeholder` returns
`"missing"` and leaves the filesystem untouched when the expected archived
source is not a file — regardless of the destination, so the missing check
takes precedence — and otherwise, when the expected destination already
exists, returns `"skipped"` with no mutation, regardless of the dry-run
flag. -/
theorem process_placeholder_missing_and_skipped (fs : FS) (fail : FailSpec)
    (dirpath : List String) (pfn : String) (tgt arc : List String) (dry : Bool) :
    (fs.isFile (archived_file dirpath pfn tgt arc) = false →
      process_placeholder fs fail dirpath pfn tgt arc dry = ("missing", fs)) ∧
    (fs.isFile (archived_file dirpath pfn tgt arc) = true →
      fs.isFile (target_file dirpath pfn) = true →
      process_placeholder fs fail dirpath pfn tgt arc dry = ("skipped", fs)) := by
  constructor
  · intro hA
    simp [process_placeholder, hA]
  · intro hA hT
    simp [process_placeholder, hA, hT]

/-- C5: in dry-run mode `process_placeholder` performs no filesystem
mutation, and it returns `"restored"` exactly when the archived source
exists and the destination does not — the same condition the non-dry-run
branch classifies as `restored`. -/
theorem process_placeholder_dry_run (fs : FS) (fail : FailSpec)
    (dirpath : List String) (pfn : String) (tgt arc : List String) :
    (process_placeholder fs fail dirpath pfn tgt arc true).2 = fs ∧
    ((process_placeholder fs fail dirpath pfn tgt arc true).1 = "restored" ↔
      fs.isFile (archived_file dirpath pfn tgt arc) = true ∧
      fs.isFile (target_file dirpath pfn) = false) := by
  by_cases hA : fs.isFile (archived_file dirpath pfn tgt arc) = true
  · by_cases hT : fs.isFile (target_file dirpath pfn) = true
    · constructor <;> simp [process_placeholder, hA, hT]
    · constructor <;> simp [process_placeholder, hA, hT]
  · simp at hA
    constructor <;> simp [process_placeholder, hA]

/-- C10: the Executor's existence checks are `os.path.isfile` checks, not
mere existence: an archived source that exists as a directory but not as a
regular file yields `"missing"`, and a destination that exists as a
directory but not as a regular file is not `"skipped"` — the restore is
attempted instead. -/
theorem process_placeholder_isfile_checks (fs : FS) (fail : FailSpec)
    (dirpath : List String) (pfn : String) (tgt arc : List String) (dry : Bool) :
    (fs.isDir (archived_file dirpath pfn tgt arc) = true →
      fs.isFile (archived_file dirpath pfn tgt arc) = false →
      (process_placeholder fs fail dirpath pfn tgt arc dry).1 = "missing") ∧
    (fs.isFile (archived_file dirpath pfn tgt arc) = true →
      fs.isDir (target_file dirpath pfn) = true →
      fs.isFile (target_file dirpath pfn) = false →
      (process_placeholder fs fail dirpath pfn tgt arc dry).1 ≠ "skipped") := by
  constructor
  · intro _ hA
    simp [process_placeholder, hA]
  · intro hA _ hT
    simp only [process_placeholder, hA, hT]
    repeat' split
    all_goals simp_all

/-- C2: `construct_and_validate_paths` distinguishes the three validation
failures — target directory missing, `"Shared"` anchor absent from the
normalized target path, computed archive directory missing — and on success
returns the archive root joined with the portion of the normalized target
path from the anchor onward; `restore_archived_files` calls it first, so a
validation failure aborts the whole run with the same error before any
placeholder is scanned or processed. -/
theorem construct_and_validate_paths_spec (fs : FS) (sched : List FailSpec)
    (tgt arcroot : List String) (dry : Bool) :
    (fs.isDir tgt = false →
      construct_and_validate_paths fs tgt arcroot =
        Except.error (RunError.targetMissing tgt) ∧
      restore_archived_files fs sched tgt arcroot dry =
        Except.error (RunError.targetMissing tgt)) ∧
    (fs.isDir tgt = true → "Shared" ∉ normSplit tgt →
      construct_and_validate_paths fs tgt arcroot =
        Except.error (RunError.anchorNotFound tgt) ∧
      restore_archived_files fs sched tgt arcroot dry =
        Except.error (RunError.anchorNotFound tgt)) ∧
    (fs.isDir tgt = true → "Shared" ∈ normSplit tgt →
      fs.isDir (arcroot ++ (normSplit tgt).drop ((normSplit tgt).indexOf "Shared")) = false →
      construct_and_validate_paths fs tgt arcroot =
        Except.error (RunError.archiveMissing
          (arcroot ++ (normSplit tgt).drop ((normSplit tgt).indexOf "Shared"))) ∧
      restore_archived_files fs sched tgt arcroot dry =
        Except.error (RunError.archiveMissing
          (arcroot ++ (normSplit tgt).drop ((normSplit tgt).indexOf "Shared")))) ∧
    (fs.isDir tgt = true → "Shared" ∈ normSplit tgt →
      fs.isDir (arcroot ++ (normSplit tgt).drop ((normSplit tgt).indexOf "Shared")) = true →
      construct_and_validate_paths fs tgt arcroot =
        Except.ok (arcroot ++ (normSplit tgt).drop ((normSplit tgt).indexOf "Shared"))) := by
  refine ⟨fun h1 => ?_, fun h1 h2 => ?_, fun h1 h2 h3 => ?_, fun h1 h2 h3 => ?_⟩
  · have hc : construct_and_validate_paths fs tgt arcroot =
        Except.error (RunError.targetMissing tgt) := by
      simp [construct_and_validate_paths, h1]
    exact ⟨hc, by rw [restore_archived_files, hc]⟩
  · have hc : construct_and_validate_paths fs tgt arcroot =
        Except.error (RunError.anchorNotFound tgt) := by
      simp [construct_and_validate_paths, h1, h2]
    exact ⟨hc, by rw [restore_archived_files, hc]⟩
  · have hc : construct_and_validate_paths fs tgt arcroot =
        Except.error (RunError.archiveMissing
          (arcroot ++ (normSplit tgt).drop ((normSplit tgt).indexOf "Shared"))) := by
      simp [construct_and_validate_paths, h1, h2, h3]
    exact ⟨hc, by rw [restore_archived_files, hc]⟩
  · simp [construct_and_validate_paths, h1, h2, h3]

/-- C3: a file of the target tree is accepted by the Scanner exactly when
its name ends in `".txt"` and its first line, case-folded, contains the
phrase `"automatic archiving policy"`; in particular every `.txt` file
whose first line lacks the phrase is excluded.  The scan itself performs no
filesystem mutation: `collect_txt_placeholders` only reads the state. -/
theorem collect_txt_placeholders_spec (fs : FS) (tgt dirpath : List String) (fname : String)
    (hread : fs.unreadable.contains (cleanPath (dirpath ++ [fname])) = false) :
    (dirpath, fname) ∈ collect_txt_placeholders fs tgt ↔
      ((dirpath, fname) ∈ walkFiles fs tgt ∧ pyEndsWith fname ".txt" = true ∧
       pyContains (pyLower (fs.readFirstLine (dirpath ++ [fname])))
         "automatic archiving policy" = true) := by
  constructor
  · intro hmem
    rw [collect_txt_placeholders, List.mem_filterMap] at hmem
    obtain ⟨⟨d, f⟩, hdf, hf⟩ := hmem
    dsimp only at hf
    by_cases h1 : pyEndsWith f ".txt" = true
    · by_cases h2 : cleanPath (d ++ [f]) ∈ fs.unreadable
      · simp [h1, h2] at hf
      · by_cases h3 : pyContains (pyLower (fs.readFirstLine (d ++ [f])))
            "automatic archiving policy" = true
        · simp [h1, h2, h3] at hf
          obtain ⟨hd, hfn⟩ := hf
          subst hd; subst hfn
          exact ⟨hdf, h1, h3⟩
        · simp [h1, h2, h3] at hf
    · simp [h1] at hf
  · rintro ⟨hwalk, h1, h3⟩
    have hread' : cleanPath (dirpath ++ [fname]) ∉ fs.unreadable := by
      simpa using hread
    rw [collect_txt_placeholders, List.mem_filterMap]
    refine ⟨(dirpath, fname), hwalk, ?_⟩
    simp [h1, hread', h3]

/-! ### Path arithmetic of the Restore Executor -/

theorem cleanComps_append (a b : List String) (ha : CleanComps a) (hb : CleanComps b) :
    CleanComps (a ++ b) := by
  intro c hc
  rcases List.mem_append.mp hc with h | h
  · exact ha c h
  · exact hb c h

theorem cleanPath_foldl (p : List String) (hp : CleanComps p) :
    ∀ acc : List String,
      p.foldl
        (fun acc c =>
          if c = "" ∨ c = "." then acc
          else if c = ".." then acc.dropLast
          else acc ++ [c]) acc = acc ++ p := by
  induction p with
  | nil => intro acc; simp
  | cons c p ih =>
      intro acc
      have hc := hp c (List.mem_cons_self c p)
      have hp' : CleanComps p := fun d hd => hp d (List.mem_cons_of_mem _ hd)
      simp only [List.foldl_cons, hc.1, hc.2.1, hc.2.2, or_self, if_false]
      rw [ih hp' (acc ++ [c])]
      simp

theorem cleanPath_of_clean (p : List String) (hp : CleanComps p) : cleanPath p = p := by
  rw [cleanPath, cleanPath_foldl p hp []]
  simp

theorem commonPrefixLen_append_self (t r : List String) :
    commonPrefixLen (t ++ r) t = t.length := by
  induction t with
  | nil => cases r <;> rfl
  | cons c t ih => simp [commonPrefixLen, ih]

theorem relpath_append_self (t r : List String) (ht : CleanComps t) (hr : CleanComps r) :
    relpath (t ++ r) t = if r = [] then ["."] else r := by
  rw [relpath]
  rw [cleanPath_of_clean _ (cleanComps_append t r ht hr), cleanPath_of_clean t ht]
  rw [commonPrefixLen_append_self]
  simp [List.drop_left]

/-- C4: for a placeholder in directory `tgt ++ rel` whose marker filename
is `b ++ ".txt"`, the derived original filename is `b` (the marker
extension stripped), the expected archived source resolves to the archive
root followed by the placeholder directory's path relative to the target
root and then the original filename, and the expected destination is the
original filename inside the placeholder's own directory. -/
theorem placeholder_paths_spec (tgt arc rel : List String) (b : String)
    (ht : CleanComps tgt) (hrel : CleanComps rel) (harc : CleanComps arc)
    (hb : b ≠ "" ∧ b ≠ "." ∧ b ≠ "..") :
    original_filename (b ++ ".txt") = b ∧
    cleanPath (archived_file (tgt ++ rel) (b ++ ".txt") tgt arc) = arc ++ (rel ++ [b]) ∧
    target_file (tgt ++ rel) (b ++ ".txt") = tgt ++ (rel ++ [b]) := by
  have horig : original_filename (b ++ ".txt") = b := by
    cases b with
    | mk lb =>
        show pyDropRight ⟨lb ++ ['.', 't', 'x', 't']⟩ 4 = ⟨lb⟩
        rw [pyDropRight]
        congr 1
        rw [List.length_append]
        simp [List.take_left]
  have hclean_b : CleanComps [b] := by
    intro c hc
    rw [List.mem_singleton] at hc
    subst hc
    exact hb
  refine ⟨horig, ?_, ?_⟩
  · rw [archived_file, horig, relpath_append_self tgt rel ht hrel]
    by_cases hrnil : rel = []
    · subst hrnil
      rw [if_pos rfl, cleanPath]
      rw [List.foldl_append, List.foldl_append]
      rw [cleanPath_foldl arc harc []]
      simp only [List.nil_append, List.foldl_cons, List.foldl_nil]
      simp [hb.1, hb.2.1, hb.2.2]
    · rw [if_neg hrnil]
      rw [List.append_assoc, cleanPath_of_clean _
        (cleanComps_append arc (rel ++ [b]) harc (cleanComps_append rel [b] hrel hclean_b))]
  · rw [target_file, horig]
    simp

/-! ### Error paths and idempotence -/

theorem process_skipped_helper (g : FS) (fail : FailSpec) (dirpath : List String)
    (pfn : String) (tgt arc : List String) (dry : Bool)
    (hA : g.isFile (archived_file dirpath pfn tgt arc) = true)
    (hT : g.isFile (target_file dirpath pfn) = true) :
    process_placeholder g fail dirpath pfn tgt arc dry = ("skipped", g) := by
  simp [process_placeholder, hA, hT]

/-- C6: in non-dry-run mode a failed copy yields outcome `"error"` with the
marker file still present, a failed marker deletion yields `"error"` with
the successfully copied destination left in place (no rollback) and the
marker still present, and the driver loop goes on with the next placeholder
after an `"error"` outcome, merely bumping the error counter. -/
theorem process_placeholder_error_paths (fs : FS) (dirpath : List String) (pfn : String)
    (tgt arc : List String) (cp : Option String) (rv : Bool)
    (hA : fs.isFile (archived_file dirpath pfn tgt arc) = true)
    (hT : fs.isFile (target_file dirpath pfn) = false)
    (hMark : cleanPath (placeholder_file dirpath pfn) ≠ cleanPath (target_file dirpath pfn))
    (hMarkIn : fs.isFile (placeholder_file dirpath pfn) = true) :
    ((process_placeholder fs { copyFails := true, copyPartial := cp, removeFails := rv }
        dirpath pfn tgt arc false).1 = "error" ∧
     (process_placeholder fs { copyFails := true, copyPartial := cp, removeFails := rv }
        dirpath pfn tgt arc false).2.isFile (placeholder_file dirpath pfn) = true) ∧
    ((fs.makedirs dirpath).isDir (target_file dirpath pfn) = false →
     (process_placeholder fs { removeFails := true } dirpath pfn tgt arc false).1 = "error" ∧
     (process_placeholder fs { removeFails := true } dirpath pfn tgt arc false).2.isFile
        (target_file dirpath pfn) = true ∧
     (process_placeholder fs { removeFails := true } dirpath pfn tgt arc false).2.isFile
        (placeholder_file dirpath pfn) = true) ∧
    (∀ (sched : List FailSpec) (rest : List (List String × String))
       (cnt : Nat × Nat × Nat × Nat) (df : List String × String),
      (process_placeholder fs (sched.headD {}) df.1 df.2 tgt arc false).1 = "error" →
      restore_loop fs sched (df :: rest) tgt arc false cnt =
        restore_loop (process_placeholder fs (sched.headD {}) df.1 df.2 tgt arc false).2
          sched.tail rest tgt arc false (cnt.1, cnt.2.1, cnt.2.2.1, cnt.2.2.2 + 1)) := by
  refine ⟨⟨?_, ?_⟩, fun hDir => ?_, fun sched rest cnt df hErr => ?_⟩
  · simp [process_placeholder, hA, hT]
  · simp only [process_placeholder, hA, hT]
    cases cp with
    | none => simp [hMarkIn]
    | some c =>
        simp [FS.isFile_writeFile_ne _ _ _ _ hMark, hMarkIn]
  · have hcopy : (fs.makedirs dirpath).copyFile (archived_file dirpath pfn tgt arc)
        (target_file dirpath pfn) =
        (fs.makedirs dirpath).writeFile (target_file dirpath pfn)
          ((fs.makedirs dirpath).readContent (archived_file dirpath pfn tgt arc)) :=
      FS.copyFile_of_not_dir _ _ _ hDir
    refine ⟨?_, ?_, ?_⟩
    · simp [process_placeholder, hA, hT]
    · simp only [process_placeholder, hA, hT]
      simp [hcopy]
    · simp only [process_placeholder, hA, hT]
      simp [hcopy, FS.isFile_writeFile_ne _ _ _ _ hMark, hMarkIn]
  · rw [restore_loop]
    have htal : tally cnt (process_placeholder fs (sched.headD {}) df.1 df.2 tgt arc false).1 =
        Except.ok (cnt.1, cnt.2.1, cnt.2.2.1, cnt.2.2.2 + 1) := by
      rw [hErr]; simp [tally]
    rw [htal]

/-- C7: after a successful non-dry-run restore the marker file is gone, so
a second pass finds no placeholder at that path; and if an identical marker
is recreated, processing it again returns `"skipped"` with no further
mutation, because the destination now exists — never a duplicate restore. -/
theorem second_pass_no_duplicate_restore (fs : FS) (dirpath : List String) (pfn : String)
    (tgt arc : List String)
    (hA : fs.isFile (archived_file dirpath pfn tgt arc) = true)
    (hT : fs.isFile (target_file dirpath pfn) = false)
    (hDir : (fs.makedirs dirpath).isDir (target_file dirpath pfn) = false)
    (hMT : cleanPath (placeholder_file dirpath pfn) ≠ cleanPath (target_file dirpath pfn))
    (hAT : cleanPath (archived_file dirpath pfn tgt arc) ≠ cleanPath (target_file dirpath pfn))
    (hAM : cleanPath (archived_file dirpath pfn tgt arc) ≠
      cleanPath (placeholder_file dirpath pfn)) :
    (process_placeholder fs {} dirpath pfn tgt arc false).1 = "restored" ∧
    (process_placeholder fs {} dirpath pfn tgt arc false).2.isFile
      (placeholder_file dirpath pfn) = false ∧
    (∀ (content : String) (fail2 : FailSpec) (dry2 : Bool),
      process_placeholder
        ((process_placeholder fs {} dirpath pfn tgt arc false).2.writeFile
          (placeholder_file dirpath pfn) content)
        fail2 dirpath pfn tgt arc dry2 =
      ("skipped",
        (process_placeholder fs {} dirpath pfn tgt arc false).2.writeFile
          (placeholder_file dirpath pfn) content)) := by
  have hTM : cleanPath (target_file dirpath pfn) ≠ cleanPath (placeholder_file dirpath pfn) :=
    fun h => hMT h.symm
  have hstate : process_placeholder fs {} dirpath pfn tgt arc false =
      ("restored",
        (((fs.makedirs dirpath).writeFile (target_file dirpath pfn)
          ((fs.makedirs dirpath).readContent
            (archived_file dirpath pfn tgt arc))).removeFile
              (placeholder_file dirpath pfn))) := by
    simp [process_placeholder, hA, hT, FS.copyFile_of_not_dir _ _ _ hDir]
  refine ⟨by rw [hstate], by rw [hstate]; exact FS.isFile_removeFile_self _ _,
    fun content fail2 dry2 => ?_⟩
  apply process_skipped_helper
  · rw [hstate]
    rw [FS.isFile_writeFile_ne _ _ _ _ hAM, FS.isFile_removeFile_ne _ _ _ hAM,
      FS.isFile_writeFile_ne _ _ _ _ hAT, FS.isFile_makedirs]
    exact hA
  · rw [hstate]
    rw [FS.isFile_writeFile_ne _ _ _ _ hTM, FS.isFile_removeFile_ne _ _ _ hTM,
      FS.isFile_writeFile_self]

theorem tally_sum (c c' : Nat × Nat × Nat × Nat) (r : String)
    (h : tally c r = Except.ok c') :
    c'.1 + c'.2.1 + c'.2.2.1 + c'.2.2.2 = c.1 + c.2.1 + c.2.2.1 + c.2.2.2 + 1 := by
  unfold tally at h
  split_ifs at h <;> cases h <;> dsimp <;> omega

theorem restore_loop_sum (placeholders : List (List String × String))
    (tgt arc : List String) (dry : Bool) :
    ∀ (fs : FS) (sched : List FailSpec) (c : Nat × Nat × Nat × Nat)
      (out : (Nat × Nat × Nat × Nat) × FS),
      restore_loop fs sched placeholders tgt arc dry c = Except.ok out →
      out.1.1 + out.1.2.1 + out.1.2.2.1 + out.1.2.2.2 =
        c.1 + c.2.1 + c.2.2.1 + c.2.2.2 + placeholders.length := by
  induction placeholders with
  | nil =>
      intro fs sched c out h
      rw [restore_loop] at h
      cases h
      simp
  | cons df rest ih =>
      intro fs sched c out h
      rw [restore_loop] at h
      cases htal : tally c (process_placeholder fs (sched.headD {}) df.1 df.2 tgt arc dry).1 with
      | error e => rw [htal] at h; cases h
      | ok c1 =>
          rw [htal] at h
          have hrec := ih _ sched.tail c1 out h
          have hsum := tally_sum c c1 _ htal
          simp only [List.length_cons]
          omega

/-- C8: when `restore_archived_files` completes normally, the four counts
it returns sum to exactly the number of placeholders the Scanner accepted:
each accepted placeholder is processed once and bumps exactly one
counter. -/
theorem counts_sum_eq_placeholders (fs : FS) (sched : List FailSpec)
    (tgt arcroot : List String) (dry : Bool) (r s m e : Nat) (fs' : FS)
    (h : restore_archived_files fs sched tgt arcroot dry = Except.ok ((r, s, m, e), fs')) :
    r + s + m + e = (collect_txt_placeholders fs tgt).length := by
  rw [restore_archived_files] at h
  cases hc : construct_and_validate_paths fs tgt arcroot with
  | error e2 => rw [hc] at h; cases h
  | ok arcPath =>
      rw [hc] at h
      have := restore_loop_sum (collect_txt_placeholders fs tgt) tgt arcPath dry
        fs sched (0, 0, 0, 0) ((r, s, m, e), fs') h
      simpa using this

/-! ### Concrete instantiations of the theorems -/

/-- C1 witness: `report.txt` (archived copy absent) yields `"missing"`, and
`data.txt` (destination present) yields `"skipped"` in dry-run mode, both
leaving the state untouched. -/
theorem process_placeholder_missing_and_skipped_witness :
    (exFS.isFile (archived_file exSub "report.txt" exTgt exArcPath) = false ∧
     process_placeholder exFS {} exSub "report.txt" exTgt exArcPath false =
       ("missing", exFS)) ∧
    (exFS.isFile (archived_file exSub "data.txt" exTgt exArcPath) = true ∧
     exFS.isFile (target_file exSub "data.txt") = true ∧
     process_placeholder exFS {} exSub "data.txt" exTgt exArcPath true =
       ("skipped", exFS)) := by
  refine ⟨⟨by rfl, ?_⟩, by rfl, by rfl, ?_⟩
  · exact (process_placeholder_missing_and_skipped exFS {} exSub "report.txt" exTgt
      exArcPath false).1 (by rfl)
  · exact (process_placeholder_missing_and_skipped exFS {} exSub "data.txt" exTgt
      exArcPath true).2 (by rfl) (by rfl)

/-- C2 witness: the three validation failures and the success case, each at
a concrete filesystem. -/
theorem construct_and_validate_paths_spec_witness :
    (exFSEmpty.isDir exTgt = false ∧
     construct_and_validate_paths exFSEmpty exTgt exArcRoot =
       Except.error (RunError.targetMissing exTgt) ∧
     restore_archived_files exFSEmpty [] exTgt exArcRoot true =
       Except.error (RunError.targetMissing exTgt)) ∧
    construct_and_validate_paths exFSNoAnchor exTgtNoAnchor exArcRoot =
      Except.error (RunError.anchorNotFound exTgtNoAnchor) ∧
    construct_and_validate_paths exFSNoArchive exTgt exArcRoot =
      Except.error (RunError.archiveMissing
        (exArcRoot ++ (normSplit exTgt).drop ((normSplit exTgt).indexOf "Shared"))) ∧
    construct_and_validate_paths exFS exTgt exArcRoot =
      Except.ok (exArcRoot ++ (normSplit exTgt).drop ((normSplit exTgt).indexOf "Shared")) := by
  refine ⟨⟨by rfl, ?_, ?_⟩, ?_, ?_, ?_⟩
  · exact ((construct_and_validate_paths_spec exFSEmpty [] exTgt exArcRoot true).1
      (by rfl)).1
  · exact ((construct_and_validate_paths_spec exFSEmpty [] exTgt exArcRoot true).1
      (by rfl)).2
  · exact ((construct_and_validate_paths_spec exFSNoAnchor [] exTgtNoAnchor exArcRoot
      true).2.1 (by rfl) (by decide)).1
  · exact ((construct_and_validate_paths_spec exFSNoArchive [] exTgt exArcRoot
      true).2.2.1 (by rfl) (by decide) (by rfl)).1
  · exact (construct_and_validate_paths_spec exFS [] exTgt exArcRoot true).2.2.2
      (by rfl) (by decide) (by rfl)

/-- C3 witness: the acceptance condition instantiated at the readable
marker `notes.txt`. -/
theorem collect_txt_placeholders_spec_witness :
    exFS.unreadable.contains (cleanPath (exSub ++ ["notes.txt"])) = false ∧
    ((exSub, "notes.txt") ∈ collect_txt_placeholders exFS exTgt ↔
      ((exSub, "notes.txt") ∈ walkFiles exFS exTgt ∧
       pyEndsWith "notes.txt" ".txt" = true ∧
       pyContains (pyLower (exFS.readFirstLine (exSub ++ ["notes.txt"])))
         "automatic archiving policy" = true)) :=
  ⟨rfl, collect_txt_placeholders_spec exFS exTgt exSub "notes.txt" rfl⟩

/-- C4 witness: the derived paths at a concrete placeholder. -/
theorem placeholder_paths_spec_witness :
    CleanComps ["srv", "Shared", "proj"] ∧ CleanComps ["sub"] ∧
    CleanComps ["arc", "Shared", "proj"] ∧
    (original_filename ("notes" ++ ".txt") = "notes" ∧
     cleanPath (archived_file (["srv", "Shared", "proj"] ++ ["sub"]) ("notes" ++ ".txt")
       ["srv", "Shared", "proj"] ["arc", "Shared", "proj"]) =
       ["arc", "Shared", "proj"] ++ (["sub"] ++ ["notes"]) ∧
     target_file (["srv", "Shared", "proj"] ++ ["sub"]) ("notes" ++ ".txt") =
       ["srv", "Shared", "proj"] ++ (["sub"] ++ ["notes"])) :=
  ⟨by decide, by decide, by decide,
   placeholder_paths_spec ["srv", "Shared", "proj"] ["arc", "Shared", "proj"] ["sub"]
     "notes" (by decide) (by decide) (by decide) (by decide)⟩

/-- C6 witness: a failed copy and a failed marker deletion at the
restorable placeholder `notes.txt`. -/
theorem process_placeholder_error_paths_witness :
    ((process_placeholder exFS { copyFails := true, copyPartial := some "partial" }
        exSub "notes.txt" exTgt exArcPath false).1 = "error" ∧
     (process_placeholder exFS { copyFails := true, copyPartial := some "partial" }
        exSub "notes.txt" exTgt exArcPath false).2.isFile
       (placeholder_file exSub "notes.txt") = true) ∧
    ((process_placeholder exFS { removeFails := true } exSub "notes.txt" exTgt exArcPath
        false).1 = "error" ∧
     (process_placeholder exFS { removeFails := true } exSub "notes.txt" exTgt exArcPath
        false).2.isFile (target_file exSub "notes.txt") = true ∧
     (process_placeholder exFS { removeFails := true } exSub "notes.txt" exTgt exArcPath
        false).2.isFile (placeholder_file exSub "notes.txt") = true) := by
  have h := process_placeholder_error_paths exFS exSub "notes.txt" exTgt exArcPath
    (some "partial") false (by rfl) (by rfl) (by decide) (by rfl)
  exact ⟨h.1, h.2.1 (by rfl)⟩

/-- C7 witness: restoring `notes.txt`, then reprocessing a recreated
identical marker, which is skipped. -/
theorem second_pass_no_duplicate_restore_witness :
    (process_placeholder exFS {} exSub "notes.txt" exTgt exArcPath false).1 = "restored" ∧
    (process_placeholder exFS {} exSub "notes.txt" exTgt exArcPath false).2.isFile
      (placeholder_file exSub "notes.txt") = false ∧
    process_placeholder
      ((process_placeholder exFS {} exSub "notes.txt" exTgt exArcPath false).2.writeFile
        (placeholder_file exSub "notes.txt") "Automatic Archiving Policy")
      {} exSub "notes.txt" exTgt exArcPath false =
    ("skipped",
      (process_placeholder exFS {} exSub "notes.txt" exTgt exArcPath false).2.writeFile
        (placeholder_file exSub "notes.txt") "Automatic Archiving Policy") := by
  have h := second_pass_no_duplicate_restore exFS exSub "notes.txt" exTgt exArcPath
    (by rfl) (by rfl) (by rfl) (by decide) (by decide) (by decide)
  exact ⟨h.1, h.2.1, h.2.2 "Automatic Archiving Policy" {} false⟩

/-- C8 witness: the full non-dry run over `exFS` returns counts
`(1, 1, 1, 0)`, summing to the three accepted placeholders. -/
theorem counts_sum_eq_placeholders_witness :
    restore_archived_files exFS [] exTgt exArcRoot false =
      Except.ok ((1, 1, 1, 0), exFSFinal) ∧
    1 + 1 + 1 + 0 = (collect_txt_placeholders exFS exTgt).length := by
  have h : restore_archived_files exFS [] exTgt exArcRoot false =
      Except.ok ((1, 1, 1, 0), exFSFinal) := rfl
  exact ⟨h, counts_sum_eq_placeholders exFS [] exTgt exArcRoot false 1 1 1 0 exFSFinal h⟩

/-- C9 witness: on `exFS` validation succeeds and the run completes
normally — the unknown-outcome branch is never taken. -/
theorem unknown_result_branch_unreachable_witness :
    construct_and_validate_paths exFS exTgt exArcRoot = Except.ok exArcPath ∧
    ∃ out, restore_archived_files exFS [] exTgt exArcRoot false = Except.ok out := by
  have h := (unknown_result_branch_unreachable exFS {} exSub "notes.txt" exTgt exArcPath
    false [] exArcRoot).2 exArcPath (by rfl)
  exact ⟨by rfl, h⟩

/-- C10 witness: an archived source that is a directory yields `"missing"`,
and a destination that is a directory does not yield `"skipped"`. -/
theorem process_placeholder_isfile_checks_witness :
    exFS10.isDir (archived_file exD "thing.txt" exTgt exArcPath) = true ∧
    (process_placeholder exFS10 {} exD "thing.txt" exTgt exArcPath true).1 = "missing" ∧
    exFS10.isDir (target_file exD "other.txt") = true ∧
    (process_placeholder exFS10 {} exD "other.txt" exTgt exArcPath true).1 ≠ "skipped" := by
  refine ⟨by rfl, ?_, by rfl, ?_⟩
  · exact (process_placeholder_isfile_checks exFS10 {} exD "thing.txt" exTgt exArcPath
      true).1 (by rfl) (by rfl)
  · exact (process_placeholder_isfile_checks exFS10 {} exD "other.txt" exTgt exArcPath
      true).2 (by rfl) (by rfl) (by rfl)

end RestoreFiles
